/-
Verification of the Segmenta timeline core against its specification.

Shallow embedding of the source:
  - src/types.ts                      : data model (TimelineSegment, Asset, track and asset kinds)
  - src/unnamed/part_005 (App)        : segment store mutations, transport clock, content duration
  - src/unnamed/part_003 (PlayerPanel): playback resolver (per-track first-match scan)
  - src/services/ffmpegService.ts     : renderTimeline export pipeline

JavaScript numbers are modelled as rationals (all values appearing in the
claims are exactly representable, and +, *, /, min, max, floor, ceil, round
on them agree with IEEE double evaluation at these magnitudes).
Asynchronous effects (network fetch, ffmpeg exec) are modelled by an
explicit environment recording which external operations succeed.
-/
import Mathlib

namespace Segmenta

/-- Media kind of an asset (src/types.ts, enum AssetType).  The audio
member is named AUDIO_KIND here; the source spells it without the suffix. -/
inductive AssetType where
  | IMAGE
  | VIDEO
  | AUDIO_KIND
deriving DecidableEq

/-- Track lane of a segment (src/types.ts, enum TrackType).  The audio
member is named AUDIO_TRACK here; the source spells it without the
suffix. -/
inductive TrackType where
  | VIDEO_MAIN
  | OVERLAY
  | AUDIO_TRACK
deriving DecidableEq

/-- src/types.ts, interface TimelineSegment.  Fields not used by any claim
(continuityScore, overlay metadata, maskData) are omitted. -/
structure TimelineSegment where
  id : String
  assetId : String
  trackId : TrackType
  startFrame : ℚ
  endFrame : ℚ
  duration : ℚ
  label : String
  isAiGenerated : Bool
  linkedSegmentId : Option String := none
  assetUrl : Option String := none
  assetType : Option AssetType := none
deriving DecidableEq

/-- src/types.ts, interface Asset.  Only the fields read by the timeline
handlers are kept; metadataDuration is the optional metadata.duration. -/
structure Asset where
  id : String
  type : AssetType
  url : String
  name : String
  mimeType : String
  metadataDuration : Option ℚ := none
deriving DecidableEq

/-- JavaScript Math.round: round half toward positive infinity. -/
def jsRound (q : ℚ) : ℤ := ⌊q + 1 / 2⌋

/-- JavaScript truthiness of an optional string (undefined and the empty
string are falsy). -/
def truthyStr : Option String → Bool
  | none => false
  | some s => !(s == "")

/-- JavaScript `x || d` for an optional number x (undefined and 0 are falsy). -/
def jsOrDefault (x : Option ℚ) (d : ℚ) : ℚ :=
  match x with
  | none => d
  | some v => if v = 0 then d else v

/-! ## Segment store (src/unnamed/part_005, App component) -/

/-- The initial segment store (part_005 lines 46-49). -/
def initialSegments : List TimelineSegment :=
  [ { id := "1", assetId := "start", trackId := .VIDEO_MAIN, startFrame := 0,
      endFrame := 120, duration := 4, label := "Intro Hook", isAiGenerated := false,
      assetUrl := some "https://commondatastorage.googleapis.com/gtv-videos-bucket/sample/ForBiggerJoyrides.mp4" },
    { id := "2", assetId := "mid", trackId := .VIDEO_MAIN, startFrame := 121,
      endFrame := 240, duration := 4, label := "Value Prop", isAiGenerated := true,
      assetUrl := some "https://commondatastorage.googleapis.com/gtv-videos-bucket/sample/ForBiggerBlazes.mp4" } ]

/-- A Partial TimelineSegment update as passed to handleUpdateSegment.
Only the fields the claims exercise are represented; a `none` field is an
absent property. -/
structure SegmentUpdate where
  startFrame : Option ℚ := none
  endFrame : Option ℚ := none
  duration : Option ℚ := none
  label : Option String := none
deriving DecidableEq

/-- Object spread `{ ...s, ...updates }`. -/
def applyUpdate (s : TimelineSegment) (u : SegmentUpdate) : TimelineSegment :=
  { s with
    startFrame := u.startFrame.getD s.startFrame
    endFrame := u.endFrame.getD s.endFrame
    duration := u.duration.getD s.duration
    label := u.label.getD s.label }

/-- The body of the map callback in handleUpdateSegment (part_005 lines
439-455), applied to one element s of the previous store prev. -/
def updateOne (prev : List TimelineSegment) (id : String) (u : SegmentUpdate)
    (s : TimelineSegment) : TimelineSegment :=
  if s.id = id then
    let updated := applyUpdate s u
    match u.startFrame with
    | some x => { updated with endFrame := x + s.duration * 30 }
    | none => updated
  else
    match prev.find? (fun p => p.id == id) with
    | some movedSeg =>
      match u.startFrame with
      | some x =>
        if movedSeg.linkedSegmentId = some s.id then
          { s with startFrame := x, endFrame := x + s.duration * 30 }
        else s
      | none => s
    | none => s

/-- handleUpdateSegment (part_005 lines 438-456): setSegments(prev.map(...)). -/
def handleUpdateSegment (id : String) (u : SegmentUpdate)
    (prev : List TimelineSegment) : List TimelineSegment :=
  prev.map (updateOne prev id u)

/-- handleDeleteSegment (part_005 lines 487-489): prev.filter(s.id !== id). -/
def handleDeleteSegment (id : String) (prev : List TimelineSegment) :
    List TimelineSegment :=
  prev.filter (fun s => !(s.id == id))

/-- handleUnlink (part_005 lines 478-485). -/
def handleUnlink (id : String) (prev : List TimelineSegment) :
    List TimelineSegment :=
  prev.map (fun s =>
    if s.id = id ∨ s.linkedSegmentId = some id then
      { s with linkedSegmentId := none }
    else s)

/-- handleDropAssetOnTimeline (part_005 lines 395-436).  The generated
crypto.randomUUID is passed in as segId. -/
def handleDropAssetOnTimeline (asset : Asset) (trackId : TrackType) (time : ℚ)
    (segId : String) (prev : List TimelineSegment) : List TimelineSegment :=
  let startFrame : ℚ := (⌊time * 30⌋ : ℤ)
  let duration := jsOrDefault asset.metadataDuration 4
  let lengthInFrames : ℚ := (⌈duration * 30⌉ : ℤ)
  let base : TimelineSegment :=
    { id := segId
      assetId := asset.id
      assetUrl := some asset.url
      assetType := some asset.type
      trackId := if asset.type = .VIDEO then .VIDEO_MAIN else trackId
      startFrame := startFrame
      endFrame := startFrame + lengthInFrames
      duration := duration
      label := asset.name
      isAiGenerated := false
      linkedSegmentId := if asset.type = .VIDEO then some ("audio-" ++ segId) else none }
  let newSegments :=
    if asset.type = .VIDEO then
      [base,
       { id := "audio-" ++ segId
         assetId := asset.id
         assetUrl := some asset.url
         trackId := .AUDIO_TRACK
         startFrame := startFrame
         endFrame := startFrame + lengthInFrames
         duration := duration
         label := "Audio: " ++ asset.name
         isAiGenerated := false
         linkedSegmentId := some segId }]
    else [base]
  prev ++ newSegments

/-! ## Playback resolver (src/unnamed/part_003, PlayerPanel effect) -/

/-- The per-segment test of the resolver scan (part_003 lines 58, 72, 76):
trackId matches and the half-open frame interval contains the frame. -/
def segmentMatches (track : TrackType) (frame : ℚ) (s : TimelineSegment) : Bool :=
  s.trackId == track && decide (frame ≥ s.startFrame) && decide (frame < s.endFrame)

/-- segments.find?(...) of the resolver: first match in store order, none
when no segment on the track contains the frame. -/
def resolveTrack (segments : List TimelineSegment) (track : TrackType)
    (frame : ℚ) : Option TimelineSegment :=
  segments.find? (segmentMatches track frame)

/-- Conversion of logical time to a frame number (part_003 line 55). -/
def currentFrame (timelineTime : ℚ) : ℚ := timelineTime * 30

/-! ## Transport clock (src/unnamed/part_005) -/

/-- contentDuration (part_005 lines 102-106): 10 when the store is empty,
else Math.max of all endFrames divided by 30. -/
def contentDuration (segments : List TimelineSegment) : ℚ :=
  match segments with
  | [] => 10
  | s :: rest => (rest.foldl (fun m t => max m t.endFrame) s.endFrame) / 30

/-- Transport clock state: timelineTime and isTimelinePlaying. -/
structure ClockState where
  time : ℚ
  playing : Bool
deriving DecidableEq

/-- handleSeek (part_005 lines 151-156): clamp the requested time into
[0, contentDuration]. -/
def handleSeek (cd t : ℚ) : ℚ := min (max 0 t) cd

/-- One iteration of the master clock loop (part_005 lines 109-130) with
elapsed wall-time delta: when playing, advance; crossing contentDuration
pins the time to contentDuration and stops playback. -/
def tickClock (cd delta : ℚ) (st : ClockState) : ClockState :=
  if st.playing then
    let nextTime := st.time + delta
    if nextTime ≥ cd then { time := cd, playing := false }
    else { time := nextTime, playing := st.playing }
  else st

/-- The clock-facing events of the transport. -/
inductive ClockEvent where
  | seek (t : ℚ)
  | tick (delta : ℚ)

/-- Event step of the transport clock (handleSeek only changes the time). -/
def clockStep (cd : ℚ) (st : ClockState) : ClockEvent → ClockState
  | .seek t => { st with time := handleSeek cd t }
  | .tick d => tickClock cd d st

/-! ## Render pipeline (src/services/ffmpegService.ts, renderTimeline)

The pipeline is sequential; its interactions with the outside world
(network fetch of segment bytes, ffmpeg exec) can fail.  A RenderEnv
records which of them succeed in a given run; renderTimeline is then a
pure function of the environment and the segment snapshot, returning the
streams the source produces: progress callbacks, console log lines, the
stage-1 clip list, the audio filter strings, and the final result
(the object URL is modelled by the name of the file read back). -/

/-- Outcome oracle for the external operations of one render run. -/
structure RenderEnv where
  /-- ffmpeg singleton already loaded (skips the 0.02 progress callback). -/
  ffLoaded : Bool
  /-- fetch + writeFile + exec succeed for video segment index i of stage 1. -/
  videoOk : Nat → Bool
  /-- the stage-2 concat exec succeeds (only reached with 2+ clips). -/
  concatOk : Bool
  /-- message of the error thrown by a failing concat exec. -/
  execErrorMsg : String
  /-- fetch + writeFile succeed for audio segment index i of stage 3. -/
  audioOk : Nat → Bool
  /-- the stage-3 amix exec succeeds. -/
  mixOk : Bool

def noVideoError : String :=
  "No video segments found on the timeline. Add clips to the V1 MAIN track first."

def allClipsFailedError : String :=
  "All clips failed to encode. Check your media files."

/-- The ascending startFrame comparison used by segments.sort. -/
def byStartFrame (a b : TimelineSegment) : Prop := a.startFrame ≤ b.startFrame

instance : DecidableRel byStartFrame :=
  fun a b => inferInstanceAs (Decidable (a.startFrame ≤ b.startFrame))

instance : IsTotal TimelineSegment byStartFrame := ⟨fun x y => le_total x.startFrame y.startFrame⟩

instance : IsTrans TimelineSegment byStartFrame := ⟨fun _ _ _ h h2 => le_trans h h2⟩

/-- Stable ascending sort by startFrame:
segments.sort((a, b) => a.startFrame - b.startFrame).  JavaScript sort is
stable, and a stable sort is uniquely determined by the comparator and the
input order, so any stable sort embeds it; insertion sort is used because
it is stable and structurally recursive. -/
def sortByStartFrame (l : List TimelineSegment) : List TimelineSegment :=
  List.insertionSort byStartFrame l

/-- ffmpegService.ts lines 54-56: Main-Video segments with a truthy
assetUrl, sorted by start frame. -/
def mainVideoSegments (segments : List TimelineSegment) : List TimelineSegment :=
  sortByStartFrame (segments.filter
    (fun s => s.trackId == TrackType.VIDEO_MAIN && truthyStr s.assetUrl))

/-- ffmpegService.ts lines 58-60: Audio-track segments with a truthy
assetUrl, sorted by start frame. -/
def audioTrackSegments (segments : List TimelineSegment) : List TimelineSegment :=
  sortByStartFrame (segments.filter
    (fun s => s.trackId == TrackType.AUDIO_TRACK && truthyStr s.assetUrl))

def clipFileName (i : Nat) : String := "clip_" ++ toString i ++ ".mp4"

/-- Progress callbacks of the stage-1 loop (line 73):
0.05 + (i / n) * 0.55 with the encoding stage label. -/
def stage1Progress (vs : List TimelineSegment) : List (ℚ × String) :=
  vs.enum.map (fun p =>
    (5 / 100 + ((p.1 : ℚ) / (vs.length : ℚ)) * (55 / 100),
     "Encoding clip " ++ toString (p.1 + 1) ++ "/" ++ toString vs.length
       ++ ": \"" ++ p.2.label ++ "\""))

/-- The (index, segment) pairs of stage 1 whose fetch and encode succeed. -/
def stage1Kept (env : RenderEnv) (vs : List TimelineSegment) :
    List (Nat × TimelineSegment) :=
  vs.enum.filter (fun p => env.videoOk p.1)

/-- clipNames accumulated by the stage-1 loop: clip_i.mp4 for each
successful index, in loop order (a failing segment is skipped, line 115-118). -/
def stage1Clips (env : RenderEnv) (vs : List TimelineSegment) : List String :=
  (stage1Kept env vs).map (fun p => clipFileName p.1)

/-- console.error lines of failing stage-1 segments (line 116). -/
def stage1Logs (env : RenderEnv) (vs : List TimelineSegment) : List String :=
  vs.enum.filterMap (fun p =>
    if env.videoOk p.1 then none
    else some ("[FFmpeg] Failed to process clip " ++ toString p.1))

/-- JS Math.round((seg.startFrame / 30) * 1000) of line 184. -/
def delayMsOf (seg : TimelineSegment) : ℤ := jsRound (seg.startFrame / 30 * 1000)

/-- The (index, segment) pairs of stage 3 whose audio bytes load. -/
def audioKept (env : RenderEnv) (as : List TimelineSegment) :
    List (Nat × TimelineSegment) :=
  as.enum.filter (fun p => env.audioOk p.1)

/-- One delay filter entry (line 186); inputIdx is validAudioCount + 1
(input 0 is video_only.mp4) and k the running validAudioCount.  The
stage-3 loop increments validAudioCount only on success, so enumerating
the successful segments yields exactly the loop counters. -/
def delayFilterPart (inputIdx : Nat) (d : ℤ) (k : Nat) : String :=
  "[" ++ toString inputIdx ++ ":a]adelay=" ++ toString d ++ "|" ++ toString d
    ++ ",apad[a" ++ toString k ++ "]"

/-- filterParts accumulated by the stage-3 loop (lines 171-192). -/
def audioFilterParts (env : RenderEnv) (as : List TimelineSegment) : List String :=
  (audioKept env as).enum.map
    (fun q => delayFilterPart (q.1 + 1) (delayMsOf q.2.2) q.1)

/-- mixLabels accumulated by the stage-3 loop. -/
def audioMixLabels (env : RenderEnv) (as : List TimelineSegment) : List String :=
  (audioKept env as).enum.map (fun q => "[a" ++ toString q.1 ++ "]")

/-- console.warn lines for audio segments that fail to load (line 190). -/
def audioLogs (env : RenderEnv) (as : List TimelineSegment) : List String :=
  as.enum.filterMap (fun p =>
    if env.audioOk p.1 then none
    else some ("[FFmpeg] Failed to load audio " ++ toString p.1))

/-- The full -filter_complex string (line 195). -/
def mixFilterString (env : RenderEnv) (as : List TimelineSegment) : String :=
  String.intercalate ";" (audioFilterParts env as) ++ ";"
    ++ String.join (audioMixLabels env as)
    ++ "amix=inputs=" ++ toString (audioKept env as).length ++ ":normalize=0[aout]"

/-- 0.02 progress emitted by loadFFmpeg when the singleton is not yet
loaded (line 36). -/
def loadProgress (env : RenderEnv) : List (ℚ × String) :=
  if env.ffLoaded then [] else [(2 / 100, "Downloading FFmpeg WASM core...")]

/-- The observable outcome of one renderTimeline run. -/
structure RenderRun where
  /-- onProgress calls, in order. -/
  progress : List (ℚ × String)
  /-- console error and warn lines, in order. -/
  logs : List String
  /-- stage-1 clipNames. -/
  clips : List String
  /-- segments for which per-clip work (fetch, write, encode) is attempted. -/
  clipAttempts : List TimelineSegment
  /-- stage-3 filterParts, when stage 3 executes. -/
  filterParts : List String
  /-- the -filter_complex string passed to the mix exec, when attempted. -/
  mixFilterUsed : Option String
  /-- resolved object URL (modelled by the name of the file read back) or
  the rejection message. -/
  result : Except String String

/-- renderTimeline (ffmpegService.ts lines 46-240). -/
def renderTimeline (env : RenderEnv) (segments : List TimelineSegment) : RenderRun :=
  let pro0 := loadProgress env
  let vs := mainVideoSegments segments
  let as := audioTrackSegments segments
  if vs.length = 0 then
    -- precondition failure (line 62): throw before any per-segment work
    { progress := pro0, logs := [], clips := [], clipAttempts := [],
      filterParts := [], mixFilterUsed := none, result := .error noVideoError }
  else
    let pros1 := stage1Progress vs
    let clips := stage1Clips env vs
    let logs1 := stage1Logs env vs
    if clips.length = 0 then
      -- total stage-1 failure (line 124)
      { progress := pro0 ++ pros1, logs := logs1, clips := clips,
        clipAttempts := vs, filterParts := [], mixFilterUsed := none,
        result := .error allClipsFailedError }
    else
      let pros2 := [((65 : ℚ) / 100, "Concatenating " ++ toString clips.length ++ " clips...")]
      if clips.length ≠ 1 ∧ env.concatOk = false then
        -- the unguarded concat exec (line 142) rejects the whole run
        { progress := pro0 ++ pros1 ++ pros2, logs := logs1, clips := clips,
          clipAttempts := vs, filterParts := [], mixFilterUsed := none,
          result := .error env.execErrorMsg }
      else
        -- stage 3 runs only when audio segments exist (line 163)
        let pros3 :=
          if as.length > 0 then
            [((75 : ℚ) / 100, "Mixing " ++ toString as.length ++ " audio track(s)...")]
          else []
        let fparts := if as.length > 0 then audioFilterParts env as else []
        let logsA := if as.length > 0 then audioLogs env as else []
        let vcount := (audioKept env as).length
        let mixAttempted := as.length > 0 ∧ vcount > 0
        let mixF := if mixAttempted then some (mixFilterString env as) else none
        let logsM :=
          if mixAttempted ∧ env.mixOk = false then
            ["[FFmpeg] Audio mixing failed, exporting video only"]
          else []
        let finalOutput :=
          if mixAttempted ∧ env.mixOk = true then "final_output.mp4" else "video_only.mp4"
        let pros4 := [((92 : ℚ) / 100, "Packaging final MP4..."), ((1 : ℚ), "Export complete!")]
        { progress := pro0 ++ pros1 ++ pros2 ++ pros3 ++ pros4,
          logs := logs1 ++ logsA ++ logsM, clips := clips, clipAttempts := vs,
          filterParts := fparts, mixFilterUsed := mixF,
          result := .ok finalOutput }

/-! ## Concrete fixtures used by counterexamples and witnesses -/

/-- A video asset with a known 4 second duration, as produced by an upload. -/
def vidAsset : Asset :=
  { id := "asset1", type := .VIDEO, url := "blob:vid", name := "Clip",
    mimeType := "video/mp4", metadataDuration := some 4 }

/-- The store after dropping a video asset on the timeline at time 0 with
generated id "v": the code auto-creates a linked audio segment, and the
two segments reference each other (video.linkedSegmentId = "audio-v",
audio.linkedSegmentId = "v"). -/
def dropPair : List TimelineSegment :=
  handleDropAssetOnTimeline vidAsset .VIDEO_MAIN 0 "v" []

/-- A segment that names linkB as its link partner, starting at frame 0. -/
def linkA : TimelineSegment :=
  { id := "a", assetId := "x", trackId := .VIDEO_MAIN, startFrame := 0,
    endFrame := 120, duration := 4, label := "A", isAiGenerated := false,
    linkedSegmentId := some "b" }

/-- The link target of linkA, starting at frame 10 (not aligned with linkA). -/
def linkB : TimelineSegment :=
  { id := "b", assetId := "y", trackId := .AUDIO_TRACK, startFrame := 10,
    endFrame := 130, duration := 4, label := "B", isAiGenerated := false }

/-- An environment in which every external operation succeeds and the
ffmpeg singleton is already loaded. -/
def envAllOk : RenderEnv :=
  { ffLoaded := true, videoOk := fun _ => true, concatOk := true,
    execErrorMsg := "concat exec error", audioOk := fun _ => true, mixOk := true }

/-- An environment in which the segment with stage-1 index 1 fails to
fetch or encode; everything else succeeds. -/
def envClip1Fails : RenderEnv :=
  { ffLoaded := true, videoOk := fun i => !(i == 1), concatOk := true,
    execErrorMsg := "concat exec error", audioOk := fun _ => true, mixOk := true }

/-- An environment in which every stage-1 encode fails. -/
def envAllClipsFail : RenderEnv :=
  { ffLoaded := true, videoOk := fun _ => false, concatOk := true,
    execErrorMsg := "concat exec error", audioOk := fun _ => true, mixOk := true }

/-- A Main-Video segment carrying a playable assetUrl, [0, 120). -/
def segVid : TimelineSegment :=
  { id := "s1", assetId := "a1", trackId := .VIDEO_MAIN, startFrame := 0,
    endFrame := 120, duration := 4, label := "V", isAiGenerated := false,
    assetUrl := some "blob:v1", assetType := some .VIDEO }

/-- A second Main-Video segment with a playable assetUrl, [120, 240). -/
def segVid2 : TimelineSegment :=
  { id := "s2", assetId := "a2", trackId := .VIDEO_MAIN, startFrame := 120,
    endFrame := 240, duration := 4, label := "W", isAiGenerated := false,
    assetUrl := some "blob:v2", assetType := some .VIDEO }

/-- A third Main-Video segment with a playable assetUrl, [240, 360). -/
def segVid3 : TimelineSegment :=
  { id := "s3", assetId := "a3", trackId := .VIDEO_MAIN, startFrame := 240,
    endFrame := 360, duration := 4, label := "X", isAiGenerated := false,
    assetUrl := some "blob:v3", assetType := some .VIDEO }

/-- An Audio-track segment starting at frame 60 (2.0 seconds). -/
def segAud : TimelineSegment :=
  { id := "s4", assetId := "a4", trackId := .AUDIO_TRACK, startFrame := 60,
    endFrame := 180, duration := 4, label := "A", isAiGenerated := false,
    assetUrl := some "blob:a1", assetType := some .AUDIO_KIND }

/-- A Main-Video segment with no assetUrl (never exported). -/
def segNoUrl : TimelineSegment :=
  { id := "s5", assetId := "a5", trackId := .VIDEO_MAIN, startFrame := 0,
    endFrame := 120, duration := 4, label := "N", isAiGenerated := false }

/-- First overlapping Main-Video segment [0, 150). -/
def ovA : TimelineSegment :=
  { id := "o1", assetId := "x", trackId := .VIDEO_MAIN, startFrame := 0,
    endFrame := 150, duration := 5, label := "first", isAiGenerated := false }

/-- Second overlapping Main-Video segment [100, 200). -/
def ovB : TimelineSegment :=
  { id := "o2", assetId := "y", trackId := .VIDEO_MAIN, startFrame := 100,
    endFrame := 200, duration := 10 / 3, label := "second", isAiGenerated := false }

/-- A successful find? returns an element all of whose predecessors fail
the predicate. -/
theorem find?_first_split {α : Type} (p : α → Bool) :
    ∀ {l : List α} {a : α}, l.find? p = some a →
      ∃ l₁ l₂, l = l₁ ++ a :: l₂ ∧ ∀ x ∈ l₁, p x = false := by
  intro l
  induction l with
  | nil => intro a h; simp at h
  | cons b t ih =>
    intro a h
    by_cases hb : p b = true
    · rw [List.find?_cons_of_pos t hb] at h
      cases h
      exact ⟨[], t, rfl, by simp⟩
    · rw [List.find?_cons_of_neg t (by simpa using hb)] at h
      obtain ⟨l₁, l₂, rfl, hfail⟩ := ih h
      exact ⟨b :: l₁, l₂, rfl, by
        intro x hx
        rcases List.mem_cons.mp hx with rfl | hx
        · simpa using hb
        · exact hfail x hx⟩

/-! ## C1: deletion and link references -/

/-- C1 counterexample: deleting the video segment "v" of an auto-linked
pair leaves the surviving audio segment still pointing at the removed id
"v" — handleDeleteSegment only filters and never clears linkedSegmentId,
so a dangling link reference remains. -/
theorem C1_remove_dangling_cex :
    ∃ s ∈ handleDeleteSegment "v" dropPair, s.linkedSegmentId = some "v" := by
  decide

/-- C1 (amended): remove(id) deletes exactly the segments whose id is the
removed one and leaves every other segment unchanged — in particular a
segment whose linkedSegmentId names the removed id keeps that reference. -/
theorem C1_remove_dangling (prev : List TimelineSegment) (id : String)
    (s : TimelineSegment) :
    s ∈ handleDeleteSegment id prev ↔ (s ∈ prev ∧ s.id ≠ id) := by
  simp [handleDeleteSegment, List.mem_filter]

/-- C1 witness: the surviving audio segment of dropPair is kept by the
deletion of "v", via C1_remove_dangling at a concrete store. -/
theorem C1_remove_dangling_witness :
    dropPair[1] ∈ handleDeleteSegment "v" dropPair :=
  (C1_remove_dangling dropPair "v" dropPair[1]).mpr
    ⟨List.getElem_mem (by decide), by decide⟩

/-! ## C2: link cascade on update -/

/-- C2 counterexample.  First conjunct: with A at frame 0 linked to B at
frame 10, update(A.id, startFrame 5) does not move B by A's delta (+5,
which would put B at 15): B is snapped to frame 5.  Second conjunct: in a
drop-created pair the links are mutual, so updating the audio side
"audio-v" moves the video segment "v" away from its original frame 0 —
the cascade is not directional in the claimed sense.  Third conjunct:
before the update, "v" was at frame 0. -/
theorem C2_link_cascade_cex :
    (∃ s ∈ handleUpdateSegment "a" { startFrame := some 5 } [linkA, linkB],
        s.id = "b" ∧ s.startFrame ≠ linkB.startFrame + (5 - linkA.startFrame))
    ∧ (∃ s ∈ handleUpdateSegment "audio-v" { startFrame := some 5 } dropPair,
        s.id = "v" ∧ s.startFrame ≠ 0)
    ∧ (∃ s ∈ dropPair, s.id = "v" ∧ s.startFrame = 0) := by
  refine ⟨?_, by decide, ?_⟩
  · norm_num [handleUpdateSegment, updateOne, linkA, linkB, applyUpdate]
  · refine ⟨dropPair[0], List.getElem_mem (by decide), by decide, ?_⟩
    norm_num [dropPair, handleDropAssetOnTimeline, vidAsset, jsOrDefault]

/-- C2 (amended): when segment m (found for the updated id) links to s,
update(id, startFrame x) sets s.startFrame to x itself (the same absolute
start as the updated segment, not a shift by the delta x minus the old
start — the two coincide only when both segments started at the same
frame) and s.endFrame to x + s.duration * 30; a segment not linked from m
is left unchanged, so the cascade is directional from the updated segment
unless the other segment links back (as both sides of an auto-split A/V
pair do). -/
theorem C2_link_cascade (prev : List TimelineSegment) (id : String) (x : ℚ)
    (m s : TimelineSegment) (hs : s ∈ prev)
    (hm : prev.find? (fun p => p.id == id) = some m) :
    updateOne prev id { startFrame := some x } s
      ∈ handleUpdateSegment id { startFrame := some x } prev
    ∧ (m.linkedSegmentId = some s.id → s.id ≠ id →
        updateOne prev id { startFrame := some x } s
          = { s with startFrame := x, endFrame := x + s.duration * 30 })
    ∧ (s.id ≠ id → m.linkedSegmentId ≠ some s.id →
        updateOne prev id { startFrame := some x } s = s) := by
  refine ⟨List.mem_map_of_mem _ hs, ?_, ?_⟩
  · intro hlink hne
    simp [updateOne, hne, hm, hlink]
  · intro hne hnl
    simp [updateOne, hne, hm, hnl]

/-- C2 witness: in the store [linkA, linkB], updating "a" to start 5 snaps
linkB to start 5, by C2_link_cascade at a concrete store. -/
theorem C2_link_cascade_witness :
    updateOne [linkA, linkB] "a" { startFrame := some 5 } linkB
      = { linkB with startFrame := 5, endFrame := 5 + linkB.duration * 30 } :=
  (C2_link_cascade [linkA, linkB] "a" 5 linkA linkB (by decide)
    (by decide)).2.1 (by decide) (by decide)

/-! ## C3: the endFrame invariant -/

/-- C3 counterexample: after one update call on segment "1", the untouched
segment "2" of the initial store still has endFrame 240 while
startFrame + round(duration * 30) is 121 + 120 = 241, so the claimed
store-wide invariant does not hold after every update call. -/
theorem C3_frame_invariant_cex :
    ∃ s ∈ handleUpdateSegment "1" { startFrame := some 0 } initialSegments,
      s.endFrame ≠ s.startFrame + (jsRound (s.duration * 30) : ℚ) := by
  have hmem : updateOne initialSegments "1" { startFrame := some 0 } initialSegments[1]
      ∈ handleUpdateSegment "1" { startFrame := some 0 } initialSegments :=
    List.mem_map.mpr ⟨initialSegments[1], by decide, rfl⟩
  have heq : updateOne initialSegments "1" { startFrame := some 0 } initialSegments[1]
      = initialSegments[1] := by decide
  refine ⟨_, hmem, ?_⟩
  rw [heq]
  norm_num [initialSegments, jsRound]

/-- C3 (amended): after update(id, startFrame x), the updated segment and
any segment the updated segment links to satisfy
endFrame = startFrame + duration * 30 exactly (this equals
startFrame + round(duration * 30) whenever duration * 30 is an integer,
as for whole-second durations); every other segment is returned unchanged,
so untouched segments keep whatever endFrame they had — and the shipped
initial store itself violates the invariant at segment "2". -/
theorem C3_frame_invariant (prev : List TimelineSegment) (id : String) (x : ℚ)
    (s : TimelineSegment) (hs : s ∈ prev) :
    updateOne prev id { startFrame := some x } s
      ∈ handleUpdateSegment id { startFrame := some x } prev
    ∧ (s.id = id →
        (updateOne prev id { startFrame := some x } s).endFrame
          = (updateOne prev id { startFrame := some x } s).startFrame
            + (updateOne prev id { startFrame := some x } s).duration * 30)
    ∧ (∀ m, prev.find? (fun p => p.id == id) = some m →
        m.linkedSegmentId = some s.id → s.id ≠ id →
        (updateOne prev id { startFrame := some x } s).endFrame
          = (updateOne prev id { startFrame := some x } s).startFrame
            + (updateOne prev id { startFrame := some x } s).duration * 30)
    ∧ (s.id ≠ id →
        (∀ m, prev.find? (fun p => p.id == id) = some m →
          m.linkedSegmentId ≠ some s.id) →
        updateOne prev id { startFrame := some x } s = s) := by
  refine ⟨List.mem_map_of_mem _ hs, ?_, ?_, ?_⟩
  · intro h
    simp [updateOne, h, applyUpdate]
  · intro m hm hlink hne
    simp [updateOne, hne, hm, hlink]
  · intro hne hnl
    cases hfind : prev.find? (fun p => p.id == id) with
    | none => simp [updateOne, hne, hfind]
    | some m => simp [updateOne, hne, hfind, hnl m hfind]

/-- C3 witness: updating segment "1" of the initial store to start 0
re-establishes the frame equation on the updated segment, by
C3_frame_invariant at a concrete store. -/
theorem C3_frame_invariant_witness :
    (updateOne initialSegments "1" { startFrame := some 0 } initialSegments[0]).endFrame
      = (updateOne initialSegments "1" { startFrame := some 0 } initialSegments[0]).startFrame
        + (updateOne initialSegments "1" { startFrame := some 0 } initialSegments[0]).duration * 30 :=
  (C3_frame_invariant initialSegments "1" 0 initialSegments[0]
    (List.getElem_mem (by decide))).2.1 (by decide)

/-! ## C4: playback resolution -/

/-- C4: the resolver returns none exactly when no segment of the track
contains the frame in its half-open interval; a returned segment matches
and is the first match in store iteration order; on the shipped initial
store ([0,120) and [121,240) on Main-Video) frame 120 resolves to no
segment; and on two overlapping Main-Video segments [0,150) and [100,200),
frame 120 resolves to the first-inserted one. -/
theorem C4_resolver :
    (∀ (segs : List TimelineSegment) (track : TrackType) (frame : ℚ),
        resolveTrack segs track frame = none ↔
          ∀ s ∈ segs, segmentMatches track frame s = false)
    ∧ (∀ (segs : List TimelineSegment) (track : TrackType) (frame : ℚ)
        (s : TimelineSegment),
        resolveTrack segs track frame = some s →
          segmentMatches track frame s = true
          ∧ ∃ l₁ l₂, segs = l₁ ++ s :: l₂
              ∧ ∀ t ∈ l₁, segmentMatches track frame t = false)
    ∧ resolveTrack initialSegments .VIDEO_MAIN 120 = none
    ∧ resolveTrack [ovA, ovB] .VIDEO_MAIN 120 = some ovA := by
  refine ⟨?_, ?_, by decide, by decide⟩
  · intro segs track frame
    rw [resolveTrack, List.find?_eq_none]
    constructor
    · intro h s hs
      simpa using h s hs
    · intro h s hs
      simp [h s hs]
  · intro segs track frame s h
    exact ⟨List.find?_some h, find?_first_split _ h⟩

/-- C4 witness: on the overlapping store, C4_resolver yields that the
returned segment ovA matches frame 120 and every segment stored before it
fails the match. -/
theorem C4_resolver_witness :
    segmentMatches .VIDEO_MAIN 120 ovA = true
    ∧ ∃ l₁ l₂, [ovA, ovB] = l₁ ++ ovA :: l₂
        ∧ ∀ t ∈ l₁, segmentMatches .VIDEO_MAIN 120 t = false :=
  C4_resolver.2.1 [ovA, ovB] .VIDEO_MAIN 120 ovA (by decide)

/-! ## C10: transport clock bounds -/

/-- foldl of max never drops below its seed. -/
theorem le_foldl_max_endFrame (l : List TimelineSegment) (init : ℚ) :
    init ≤ l.foldl (fun m t => max m t.endFrame) init := by
  induction l generalizing init with
  | nil => exact le_refl _
  | cons s rest ih =>
    exact le_trans (le_max_left init s.endFrame) (ih (max init s.endFrame))

/-- With nonnegative endFrames the content duration is nonnegative. -/
theorem contentDuration_nonneg (segs : List TimelineSegment)
    (h : ∀ s ∈ segs, 0 ≤ s.endFrame) : 0 ≤ contentDuration segs := by
  cases segs with
  | nil => norm_num [contentDuration]
  | cons s rest =>
    have h0 : (0 : ℚ) ≤ s.endFrame := h s (List.mem_cons_self s rest)
    have := le_foldl_max_endFrame rest s.endFrame
    have h30 : (0 : ℚ) < 30 := by norm_num
    exact div_nonneg (le_trans h0 this) (le_of_lt h30)

/-- One clock event keeps the time inside [0, cd]. -/
theorem clockStep_bounds (cd : ℚ) (hcd : 0 ≤ cd) (st : ClockState)
    (e : ClockEvent) (h0 : 0 ≤ st.time) (h1 : st.time ≤ cd)
    (hd : ∀ d : ℚ, e = ClockEvent.tick d → 0 ≤ d) :
    0 ≤ (clockStep cd st e).time ∧ (clockStep cd st e).time ≤ cd := by
  cases e with
  | seek t =>
    refine ⟨le_min (le_max_left 0 t) hcd, min_le_right _ _⟩
  | tick d =>
    have hd0 : 0 ≤ d := hd d rfl
    show 0 ≤ (tickClock cd d st).time ∧ (tickClock cd d st).time ≤ cd
    rw [tickClock]
    by_cases hp : st.playing
    · simp only [if_pos hp]
      by_cases hend : st.time + d ≥ cd
      · simp only [if_pos hend]
        exact ⟨hcd, le_refl cd⟩
      · simp only [if_neg hend]
        exact ⟨add_nonneg h0 hd0, le_of_not_ge hend⟩
    · simp only [if_neg hp]
      exact ⟨h0, h1⟩

/-- C10: with nonnegative segment endFrames, the transport time stays in
[0, contentDuration] across any sequence of seeks and nonnegative-delta
ticks; a tick that would advance a playing clock to or past
contentDuration pins the time to exactly contentDuration and stops
playback; and handleSeek clamps its argument into [0, contentDuration]. -/
theorem C10_transport (segs : List TimelineSegment)
    (hseg : ∀ s ∈ segs, 0 ≤ s.endFrame) (events : List ClockEvent)
    (hd : ∀ d : ℚ, ClockEvent.tick d ∈ events → 0 ≤ d) (st0 : ClockState)
    (h0 : 0 ≤ st0.time) (h1 : st0.time ≤ contentDuration segs) :
    (0 ≤ (events.foldl (clockStep (contentDuration segs)) st0).time
      ∧ (events.foldl (clockStep (contentDuration segs)) st0).time
          ≤ contentDuration segs)
    ∧ (∀ (st : ClockState) (d : ℚ), st.playing = true →
        contentDuration segs ≤ st.time + d →
        tickClock (contentDuration segs) d st
          = { time := contentDuration segs, playing := false })
    ∧ (∀ t : ℚ, 0 ≤ handleSeek (contentDuration segs) t
        ∧ handleSeek (contentDuration segs) t ≤ contentDuration segs) := by
  have hcd : 0 ≤ contentDuration segs := contentDuration_nonneg segs hseg
  refine ⟨?_, ?_, ?_⟩
  · induction events generalizing st0 with
    | nil => exact ⟨h0, h1⟩
    | cons e rest ih =>
      have hstep := clockStep_bounds (contentDuration segs) hcd st0 e h0 h1
        (fun d hde => hd d (by rw [hde]; exact List.mem_cons_self _ _))
      exact ih (fun d hdm => hd d (List.mem_cons_of_mem e hdm)) _
        hstep.1 hstep.2
  · intro st d hp hge
    rw [tickClock]
    simp only [if_pos hp, if_pos (show st.time + d ≥ contentDuration segs from hge)]
  · intro t
    exact ⟨le_min (le_max_left 0 t) hcd, min_le_right _ _⟩

/-- C10 witness: starting paused at 0 on the initial store, a seek to 100
(clamped to the 8 second content duration) followed by a 1 second tick
leaves the time inside [0, contentDuration initialSegments]. -/
theorem C10_transport_witness :
    0 ≤ (([ClockEvent.seek 100, ClockEvent.tick 1]).foldl
        (clockStep (contentDuration initialSegments)) ⟨0, false⟩).time
    ∧ (([ClockEvent.seek 100, ClockEvent.tick 1]).foldl
        (clockStep (contentDuration initialSegments)) ⟨0, false⟩).time
        ≤ contentDuration initialSegments :=
  (C10_transport initialSegments (by decide) [ClockEvent.seek 100, ClockEvent.tick 1]
    (by
      intro d hdm
      simp only [List.mem_cons, List.not_mem_nil, or_false] at hdm
      rcases hdm with h | h
      · exact absurd h (by simp)
      · cases h; norm_num)
    ⟨0, false⟩ (le_refl 0)
    (contentDuration_nonneg initialSegments (by decide))).1

/-! ## Render pipeline: shared lemmas -/

/-- Membership in the filtered, sorted Main-Video selection. -/
theorem mem_mainVideoSegments {segs : List TimelineSegment} {s : TimelineSegment} :
    s ∈ mainVideoSegments segs ↔
      s ∈ segs ∧ s.trackId = TrackType.VIDEO_MAIN ∧ truthyStr s.assetUrl = true := by
  unfold mainVideoSegments sortByStartFrame
  rw [(List.perm_insertionSort byStartFrame _).mem_iff, List.mem_filter]
  simp [Bool.and_eq_true, and_assoc]

/-- Membership in the filtered, sorted Audio selection. -/
theorem mem_audioTrackSegments {segs : List TimelineSegment} {s : TimelineSegment} :
    s ∈ audioTrackSegments segs ↔
      s ∈ segs ∧ s.trackId = TrackType.AUDIO_TRACK ∧ truthyStr s.assetUrl = true := by
  unfold audioTrackSegments sortByStartFrame
  rw [(List.perm_insertionSort byStartFrame _).mem_iff, List.mem_filter]
  simp [Bool.and_eq_true, and_assoc]

/-- The Main-Video selection is sorted by startFrame. -/
theorem sorted_mainVideoSegments (segs : List TimelineSegment) :
    (mainVideoSegments segs).Pairwise byStartFrame :=
  List.sorted_insertionSort byStartFrame _

/-- enum is strictly increasing in the index component. -/
theorem pairwise_enum_fst_lt {α : Type} (l : List α) :
    l.enum.Pairwise (fun a b => a.1 < b.1) := by
  rw [List.pairwise_iff_getElem]
  intro i j hi hj hij
  simp only [List.getElem_enum]
  exact hij

/-- The startFrames of the successfully encoded stage-1 segments are
ascending (they are a subsequence of the sorted selection). -/
theorem stage1Kept_sorted (env : RenderEnv) (segs : List TimelineSegment) :
    ((stage1Kept env (mainVideoSegments segs)).map (fun p => p.2.startFrame)).Pairwise
      (fun a b => a ≤ b) := by
  have hs := sorted_mainVideoSegments segs
  rw [← List.enum_map_snd (mainVideoSegments segs)] at hs
  have henum := List.pairwise_map.mp hs
  have hf := henum.filter (fun p => env.videoOk p.1)
  exact List.pairwise_map.mpr (hf.imp (fun h => h))

/-- Every stage-1 progress value lies in [0.05, 0.60). -/
theorem stage1Progress_bounds (vs : List TimelineSegment) (q : ℚ × String)
    (hq : q ∈ stage1Progress vs) : 5 / 100 ≤ q.1 ∧ q.1 < 60 / 100 := by
  obtain ⟨p, hp, rfl⟩ := List.mem_map.mp hq
  have hlt : p.1 < vs.length := List.fst_lt_of_mem_enum hp
  have hn : (0 : ℚ) < vs.length := by
    exact_mod_cast Nat.pos_of_ne_zero (by omega)
  have hratio0 : (0 : ℚ) ≤ (p.1 : ℚ) / vs.length :=
    div_nonneg (by positivity) (le_of_lt hn)
  have hratio1 : (p.1 : ℚ) / vs.length < 1 := by
    rw [div_lt_one hn]
    exact_mod_cast hlt
  have hmul0 : (0 : ℚ) ≤ (p.1 : ℚ) / vs.length * (55 / 100) :=
    mul_nonneg hratio0 (by norm_num)
  have hmul1 := mul_lt_mul_of_pos_right hratio1 (show (0 : ℚ) < 55 / 100 by norm_num)
  constructor
  · show (5 : ℚ) / 100 ≤ 5 / 100 + (p.1 : ℚ) / vs.length * (55 / 100)
    linarith
  · show (5 : ℚ) / 100 + (p.1 : ℚ) / vs.length * (55 / 100) < 60 / 100
    nlinarith

/-- Stage-1 progress values strictly increase along the loop. -/
theorem stage1Progress_pairwise (vs : List TimelineSegment) :
    (stage1Progress vs).Pairwise (fun a b => a.1 < b.1) := by
  cases vs with
  | nil => simp [stage1Progress]
  | cons v rest =>
    have hn : (0 : ℚ) < (v :: rest).length := by
      exact_mod_cast Nat.succ_pos rest.length
    refine List.pairwise_map.mpr ((pairwise_enum_fst_lt (v :: rest)).imp ?_)
    intro a b hab
    have : (a.1 : ℚ) / (v :: rest).length < (b.1 : ℚ) / (v :: rest).length := by
      apply div_lt_div_of_pos_right ?_ hn
      exact_mod_cast hab
    nlinarith

/-- Every loadProgress value is 0.02. -/
theorem loadProgress_fst (env : RenderEnv) (q : ℚ × String)
    (hq : q ∈ loadProgress env) : q.1 = 2 / 100 := by
  unfold loadProgress at hq
  cases h : env.ffLoaded with
  | true => rw [h] at hq; simp at hq
  | false => rw [h] at hq; simp at hq; rw [hq]

/-- loadProgress has at most one entry, hence is trivially pairwise. -/
theorem loadProgress_pairwise (env : RenderEnv) :
    (loadProgress env).Pairwise (fun a b => (a.1 : ℚ) < b.1) := by
  unfold loadProgress
  cases env.ffLoaded <;> simp

/-- Branch 1 of renderTimeline: no usable Main-Video segment. -/
theorem renderTimeline_noVideo (env : RenderEnv) (segs : List TimelineSegment)
    (h : (mainVideoSegments segs).length = 0) :
    renderTimeline env segs =
      { progress := loadProgress env, logs := [], clips := [], clipAttempts := [],
        filterParts := [], mixFilterUsed := none, result := .error noVideoError } := by
  simp only [renderTimeline]
  rw [if_pos h]

/-- Branch 2 of renderTimeline: every stage-1 encode failed. -/
theorem renderTimeline_allFailed (env : RenderEnv) (segs : List TimelineSegment)
    (h1 : ¬(mainVideoSegments segs).length = 0)
    (h2 : (stage1Clips env (mainVideoSegments segs)).length = 0) :
    renderTimeline env segs =
      { progress := loadProgress env ++ stage1Progress (mainVideoSegments segs),
        logs := stage1Logs env (mainVideoSegments segs),
        clips := stage1Clips env (mainVideoSegments segs),
        clipAttempts := mainVideoSegments segs, filterParts := [],
        mixFilterUsed := none, result := .error allClipsFailedError } := by
  simp only [renderTimeline]
  rw [if_neg h1, if_pos h2]

/-- Branch 3 of renderTimeline: the concat exec rejects the run. -/
theorem renderTimeline_concatFailed (env : RenderEnv) (segs : List TimelineSegment)
    (h1 : ¬(mainVideoSegments segs).length = 0)
    (h2 : ¬(stage1Clips env (mainVideoSegments segs)).length = 0)
    (h3 : (stage1Clips env (mainVideoSegments segs)).length ≠ 1 ∧ env.concatOk = false) :
    renderTimeline env segs =
      { progress := loadProgress env ++ stage1Progress (mainVideoSegments segs)
          ++ [((65 : ℚ) / 100,
              "Concatenating " ++ toString (stage1Clips env (mainVideoSegments segs)).length
                ++ " clips...")],
        logs := stage1Logs env (mainVideoSegments segs),
        clips := stage1Clips env (mainVideoSegments segs),
        clipAttempts := mainVideoSegments segs, filterParts := [],
        mixFilterUsed := none, result := .error env.execErrorMsg } := by
  simp only [renderTimeline]
  rw [if_neg h1, if_neg h2, if_pos h3]

/-- Branch 4 of renderTimeline: the run resolves. -/
theorem renderTimeline_success (env : RenderEnv) (segs : List TimelineSegment)
    (h1 : ¬(mainVideoSegments segs).length = 0)
    (h2 : ¬(stage1Clips env (mainVideoSegments segs)).length = 0)
    (h3 : ¬((stage1Clips env (mainVideoSegments segs)).length ≠ 1 ∧ env.concatOk = false)) :
    renderTimeline env segs =
      { progress := loadProgress env ++ stage1Progress (mainVideoSegments segs)
          ++ [((65 : ℚ) / 100,
              "Concatenating " ++ toString (stage1Clips env (mainVideoSegments segs)).length
                ++ " clips...")]
          ++ (if (audioTrackSegments segs).length > 0 then
              [((75 : ℚ) / 100,
                "Mixing " ++ toString (audioTrackSegments segs).length ++ " audio track(s)...")]
            else [])
          ++ [((92 : ℚ) / 100, "Packaging final MP4..."), ((1 : ℚ), "Export complete!")],
        logs := stage1Logs env (mainVideoSegments segs)
          ++ (if (audioTrackSegments segs).length > 0 then
              audioLogs env (audioTrackSegments segs)
            else [])
          ++ (if ((audioTrackSegments segs).length > 0
                ∧ (audioKept env (audioTrackSegments segs)).length > 0) ∧ env.mixOk = false then
              ["[FFmpeg] Audio mixing failed, exporting video only"]
            else []),
        clips := stage1Clips env (mainVideoSegments segs),
        clipAttempts := mainVideoSegments segs,
        filterParts := if (audioTrackSegments segs).length > 0 then
            audioFilterParts env (audioTrackSegments segs)
          else [],
        mixFilterUsed := if (audioTrackSegments segs).length > 0
            ∧ (audioKept env (audioTrackSegments segs)).length > 0 then
            some (mixFilterString env (audioTrackSegments segs))
          else none,
        result := .ok (if ((audioTrackSegments segs).length > 0
              ∧ (audioKept env (audioTrackSegments segs)).length > 0) ∧ env.mixOk = true then
            "final_output.mp4"
          else "video_only.mp4") } := by
  simp only [renderTimeline]
  rw [if_neg h1, if_neg h2, if_neg h3]

/-- Whenever per-clip work is attempted for a segment, that segment is a
Main-Video segment with a truthy assetUrl. -/
theorem clipAttempts_sub (env : RenderEnv) (segs : List TimelineSegment)
    (s : TimelineSegment) (hs : s ∈ (renderTimeline env segs).clipAttempts) :
    s.trackId = TrackType.VIDEO_MAIN ∧ truthyStr s.assetUrl = true := by
  by_cases h1 : (mainVideoSegments segs).length = 0
  · rw [renderTimeline_noVideo env segs h1] at hs
    simp at hs
  · have hmem : s ∈ mainVideoSegments segs := by
      by_cases h2 : (stage1Clips env (mainVideoSegments segs)).length = 0
      · rw [renderTimeline_allFailed env segs h1 h2] at hs
        exact hs
      · by_cases h3 : (stage1Clips env (mainVideoSegments segs)).length ≠ 1
            ∧ env.concatOk = false
        · rw [renderTimeline_concatFailed env segs h1 h2 h3] at hs
          exact hs
        · rw [renderTimeline_success env segs h1 h2 h3] at hs
          exact hs
    exact ⟨(mem_mainVideoSegments.mp hmem).2.1, (mem_mainVideoSegments.mp hmem).2.2⟩

/-! ## C6: fatal precondition -/

/-- C6: when the snapshot holds no Main-Video segment, renderTimeline
rejects with the human-readable no-video message before any per-segment
work: no clip fetch, write or encode is attempted, no clip is produced and
no per-segment log line is emitted. -/
theorem C6_no_video_precondition (env : RenderEnv) (segs : List TimelineSegment)
    (h : ∀ s ∈ segs, s.trackId ≠ TrackType.VIDEO_MAIN) :
    (renderTimeline env segs).result = Except.error noVideoError
    ∧ (renderTimeline env segs).clipAttempts = []
    ∧ (renderTimeline env segs).clips = []
    ∧ (renderTimeline env segs).logs = [] := by
  have hvs : mainVideoSegments segs = [] := by
    rw [List.eq_nil_iff_forall_not_mem]
    intro s hs
    exact h s (mem_mainVideoSegments.mp hs).1 (mem_mainVideoSegments.mp hs).2.1
  rw [renderTimeline_noVideo env segs (by rw [hvs]; rfl)]
  exact ⟨rfl, rfl, rfl, rfl⟩

/-- C6 witness: a snapshot holding only an Audio segment is rejected
immediately with the no-video error and no attempted clip work, by
C6_no_video_precondition at a concrete input. -/
theorem C6_no_video_precondition_witness :
    (renderTimeline envAllOk [linkB]).result = Except.error noVideoError
    ∧ (renderTimeline envAllOk [linkB]).clipAttempts = [] :=
  ⟨(C6_no_video_precondition envAllOk [linkB] (by decide)).1,
   (C6_no_video_precondition envAllOk [linkB] (by decide)).2.1⟩

/-! ## C9: only segments with an assetUrl are exported -/

/-- C9: a Main-Video segment without a truthy assetUrl is invisible to the
export — when every Main-Video segment lacks one, renderTimeline rejects
with the same no-video error and attempts no per-segment work; and in
every run, any segment for which clip work is attempted has a truthy
assetUrl on the Main-Video track. -/
theorem C9_asseturl_required (env : RenderEnv) (segs : List TimelineSegment)
    (h : ∀ s ∈ segs, s.trackId = TrackType.VIDEO_MAIN → truthyStr s.assetUrl = false) :
    (renderTimeline env segs).result = Except.error noVideoError
    ∧ (renderTimeline env segs).clipAttempts = []
    ∧ (∀ (env2 : RenderEnv) (segs2 : List TimelineSegment) (s : TimelineSegment),
        s ∈ (renderTimeline env2 segs2).clipAttempts →
          s.trackId = TrackType.VIDEO_MAIN ∧ truthyStr s.assetUrl = true) := by
  have hvs : mainVideoSegments segs = [] := by
    rw [List.eq_nil_iff_forall_not_mem]
    intro s hs
    have hm := mem_mainVideoSegments.mp hs
    rw [h s hm.1 hm.2.1] at hm
    exact absurd hm.2.2 (by simp)
  rw [renderTimeline_noVideo env segs (by rw [hvs]; rfl)]
  exact ⟨rfl, rfl, fun env2 segs2 s hs => clipAttempts_sub env2 segs2 s hs⟩

/-- C9 witness: a store whose only Main-Video segment has no assetUrl is
rejected with the no-video error, by C9_asseturl_required at a concrete
input. -/
theorem C9_asseturl_required_witness :
    (renderTimeline envAllOk [segNoUrl, linkB]).result = Except.error noVideoError
    ∧ (renderTimeline envAllOk [segNoUrl, linkB]).clipAttempts = [] :=
  ⟨(C9_asseturl_required envAllOk [segNoUrl, linkB] (by decide)).1,
   (C9_asseturl_required envAllOk [segNoUrl, linkB] (by decide)).2.1⟩

/-! ## C5: per-segment failure tolerance in stage 1 -/

/-- C5: with the concat exec succeeding, if some but not all Main-Video
segments fail stage 1 then the run still resolves, its clip list is
exactly the clips of the surviving segments in loop order, the surviving
segments are in ascending startFrame order, and each failing segment
leaves a log line; if every segment fails stage 1, the run rejects with
the all-clips-failed error, which is distinct from the no-video
precondition error. -/
theorem C5_partial_failure (env : RenderEnv) (segs : List TimelineSegment)
    (hconcat : env.concatOk = true) :
    ((∃ p ∈ (mainVideoSegments segs).enum, env.videoOk p.1 = false) →
      (∃ p ∈ (mainVideoSegments segs).enum, env.videoOk p.1 = true) →
        (∃ u, (renderTimeline env segs).result = Except.ok u)
        ∧ (renderTimeline env segs).clips
            = (stage1Kept env (mainVideoSegments segs)).map (fun p => clipFileName p.1)
        ∧ ((stage1Kept env (mainVideoSegments segs)).map (fun p => p.2.startFrame)).Pairwise
            (fun a b => a ≤ b)
        ∧ (∀ p ∈ (mainVideoSegments segs).enum, env.videoOk p.1 = false →
            ("[FFmpeg] Failed to process clip " ++ toString p.1)
              ∈ (renderTimeline env segs).logs))
    ∧ ((∀ p ∈ (mainVideoSegments segs).enum, env.videoOk p.1 = false) →
        ¬(mainVideoSegments segs).length = 0 →
        (renderTimeline env segs).result = Except.error allClipsFailedError)
    ∧ allClipsFailedError ≠ noVideoError := by
  refine ⟨?_, ?_, by decide⟩
  · rintro ⟨pf, hpf, hpffail⟩ ⟨pk, hpk, hpkok⟩
    have h1 : ¬(mainVideoSegments segs).length = 0 := by
      have := List.fst_lt_of_mem_enum hpk
      omega
    have hkept : pk ∈ stage1Kept env (mainVideoSegments segs) :=
      List.mem_filter.mpr ⟨hpk, hpkok⟩
    have h2 : ¬(stage1Clips env (mainVideoSegments segs)).length = 0 := by
      unfold stage1Clips
      rw [List.length_map]
      have := List.length_pos.mpr (List.ne_nil_of_mem hkept)
      omega
    have h3 : ¬((stage1Clips env (mainVideoSegments segs)).length ≠ 1
        ∧ env.concatOk = false) := by
      rintro ⟨-, hc⟩
      rw [hconcat] at hc
      cases hc
    rw [renderTimeline_success env segs h1 h2 h3]
    refine ⟨⟨_, rfl⟩, rfl, stage1Kept_sorted env segs, ?_⟩
    intro p hp hfail
    apply List.mem_append_left
    apply List.mem_append_left
    unfold stage1Logs
    exact List.mem_filterMap.mpr ⟨p, hp, by rw [hfail]; rfl⟩
  · intro hall h1
    have h2 : (stage1Clips env (mainVideoSegments segs)).length = 0 := by
      unfold stage1Clips stage1Kept
      rw [List.length_map]
      rw [List.filter_eq_nil_iff.mpr (fun p hp => by rw [hall p hp]; simp)]
      rfl
    rw [renderTimeline_allFailed env segs h1 h2]

/-- C5 witness: with three Main-Video segments of which the middle one
fails to fetch, the run still resolves and its clip list holds the two
surviving clips in timeline order, by C5_partial_failure at a concrete
input. -/
theorem C5_partial_failure_witness :
    (∃ u, (renderTimeline envClip1Fails [segVid, segVid2, segVid3]).result = Except.ok u)
    ∧ (renderTimeline envClip1Fails [segVid, segVid2, segVid3]).clips
        = (stage1Kept envClip1Fails
            (mainVideoSegments [segVid, segVid2, segVid3])).map (fun p => clipFileName p.1)
    ∧ ((stage1Kept envClip1Fails
        (mainVideoSegments [segVid, segVid2, segVid3])).map (fun p => p.2.startFrame)).Pairwise
        (fun a b => a ≤ b)
    ∧ (∀ p ∈ (mainVideoSegments [segVid, segVid2, segVid3]).enum,
        envClip1Fails.videoOk p.1 = false →
          ("[FFmpeg] Failed to process clip " ++ toString p.1)
            ∈ (renderTimeline envClip1Fails [segVid, segVid2, segVid3]).logs) :=
  (C5_partial_failure envClip1Fails [segVid, segVid2, segVid3] rfl).1
    (by decide) (by decide)

/-! ## C7: audio delay and mix filter syntax -/

/-- C7: in a resolving run with audio segments present, the filter parts
passed to the mix exec are exactly the constructed adelay chains, and the
attempted mix filter is the constructed amix string; the k-th constructed
part spells adelay=ms|ms with ms = round((startFrame / 30) * 1000) for the
k-th successfully loaded audio segment; the amix clause names the count of
successfully loaded segments; and a startFrame of 60 (2.0 seconds) yields
exactly 2000 ms. -/
theorem C7_audio_filters (env : RenderEnv) (segs : List TimelineSegment) (u : String)
    (hok : (renderTimeline env segs).result = Except.ok u) :
    ((audioTrackSegments segs).length > 0 →
        (renderTimeline env segs).filterParts
            = audioFilterParts env (audioTrackSegments segs)
        ∧ ((audioKept env (audioTrackSegments segs)).length > 0 →
            (renderTimeline env segs).mixFilterUsed
              = some (mixFilterString env (audioTrackSegments segs))))
    ∧ (∀ q ∈ (audioKept env (audioTrackSegments segs)).enum,
        (audioFilterParts env (audioTrackSegments segs))[q.1]?
          = some ("[" ++ toString (q.1 + 1) ++ ":a]adelay="
              ++ toString (jsRound (q.2.2.startFrame / 30 * 1000)) ++ "|"
              ++ toString (jsRound (q.2.2.startFrame / 30 * 1000))
              ++ ",apad[a" ++ toString q.1 ++ "]"))
    ∧ mixFilterString env (audioTrackSegments segs)
        = String.intercalate ";" (audioFilterParts env (audioTrackSegments segs)) ++ ";"
          ++ String.join (audioMixLabels env (audioTrackSegments segs))
          ++ "amix=inputs="
          ++ toString ((audioTrackSegments segs).enum.filter (fun p => env.audioOk p.1)).length
          ++ ":normalize=0[aout]"
    ∧ (∀ seg : TimelineSegment, seg.startFrame = 60 → delayMsOf seg = 2000) := by
  refine ⟨?_, ?_, rfl, ?_⟩
  · intro has
    by_cases h1 : (mainVideoSegments segs).length = 0
    · rw [renderTimeline_noVideo env segs h1] at hok
      exact absurd hok (by simp)
    · by_cases h2 : (stage1Clips env (mainVideoSegments segs)).length = 0
      · rw [renderTimeline_allFailed env segs h1 h2] at hok
        exact absurd hok (by simp)
      · by_cases h3 : (stage1Clips env (mainVideoSegments segs)).length ≠ 1
            ∧ env.concatOk = false
        · rw [renderTimeline_concatFailed env segs h1 h2 h3] at hok
          exact absurd hok (by simp)
        · rw [renderTimeline_success env segs h1 h2 h3]
          constructor
          · show (if (audioTrackSegments segs).length > 0 then
                audioFilterParts env (audioTrackSegments segs) else [])
              = audioFilterParts env (audioTrackSegments segs)
            rw [if_pos has]
          · intro hk
            show (if (audioTrackSegments segs).length > 0
                  ∧ (audioKept env (audioTrackSegments segs)).length > 0 then
                some (mixFilterString env (audioTrackSegments segs)) else none)
              = some (mixFilterString env (audioTrackSegments segs))
            rw [if_pos ⟨has, hk⟩]
  · intro q hq
    have hget := List.mem_enum_iff_getElem?.mp hq
    unfold audioFilterParts
    rw [List.getElem?_map, List.getElem?_enum, hget]
    rfl
  · intro seg hs
    rw [delayMsOf, hs]
    norm_num [jsRound]

/-- C7 witness: exporting one video and one audio segment starting at
frame 60, the filter parts of the run are the constructed adelay chain and
the delay encodes exactly 2000 ms, by C7_audio_filters at a concrete
input. -/
theorem C7_audio_filters_witness :
    (renderTimeline envAllOk [segVid, segAud]).filterParts
      = audioFilterParts envAllOk (audioTrackSegments [segVid, segAud])
    ∧ delayMsOf segAud = 2000 :=
  ⟨((C7_audio_filters envAllOk [segVid, segAud] "final_output.mp4" rfl).1
      (by decide)).1,
   (C7_audio_filters envAllOk [segVid, segAud] "final_output.mp4" rfl).2.2.2
      segAud rfl⟩

/-! ## C8: progress reporting -/

/-- The load and stage-1 progress prefix is strictly increasing. -/
theorem progress_front_pairwise (env : RenderEnv) (vs : List TimelineSegment) :
    (loadProgress env ++ stage1Progress vs).Pairwise (fun a b => a.1 < b.1) := by
  rw [List.pairwise_append]
  refine ⟨loadProgress_pairwise env, stage1Progress_pairwise vs, ?_⟩
  intro a ha b hb
  rw [loadProgress_fst env a ha]
  have := (stage1Progress_bounds vs b hb).1
  linarith

/-- The load and stage-1 progress prefix stays inside [0, 0.60). -/
theorem progress_front_lt (env : RenderEnv) (vs : List TimelineSegment)
    (q : ℚ × String) (hq : q ∈ loadProgress env ++ stage1Progress vs) :
    0 ≤ q.1 ∧ q.1 < 60 / 100 := by
  rcases List.mem_append.mp hq with h | h
  · rw [loadProgress_fst env q h]
    norm_num
  · have := stage1Progress_bounds vs q h
    constructor
    · linarith [this.1]
    · exact this.2

/-- C8: every onProgress sequence emitted by renderTimeline is strictly
increasing, all reported fractions lie in [0, 1], and the value 1.0 is
reported exactly when the run resolves successfully — a rejected run never
reports 1.0. -/
theorem C8_progress (env : RenderEnv) (segs : List TimelineSegment) :
    (renderTimeline env segs).progress.Pairwise (fun a b => a.1 < b.1)
    ∧ (∀ q ∈ (renderTimeline env segs).progress, 0 ≤ q.1 ∧ q.1 ≤ 1)
    ∧ ((∃ s, ((1 : ℚ), s) ∈ (renderTimeline env segs).progress) ↔
        ∃ u, (renderTimeline env segs).result = Except.ok u) := by
  by_cases h1 : (mainVideoSegments segs).length = 0
  · rw [renderTimeline_noVideo env segs h1]
    refine ⟨loadProgress_pairwise env, ?_, ?_⟩
    · intro q hq
      rw [loadProgress_fst env q hq]
      norm_num
    · constructor
      · rintro ⟨s, hs⟩
        have := loadProgress_fst env _ hs
        norm_num at this
      · rintro ⟨u, hu⟩
        exact absurd hu (by simp)
  · by_cases h2 : (stage1Clips env (mainVideoSegments segs)).length = 0
    · rw [renderTimeline_allFailed env segs h1 h2]
      refine ⟨progress_front_pairwise env _, ?_, ?_⟩
      · intro q hq
        have := progress_front_lt env _ q hq
        constructor
        · exact this.1
        · linarith [this.2]
      · constructor
        · rintro ⟨s, hs⟩
          have := (progress_front_lt env _ _ hs).2
          norm_num at this
        · rintro ⟨u, hu⟩
          exact absurd hu (by simp)
    · by_cases h3 : (stage1Clips env (mainVideoSegments segs)).length ≠ 1
          ∧ env.concatOk = false
      · rw [renderTimeline_concatFailed env segs h1 h2 h3]
        refine ⟨?_, ?_, ?_⟩
        · rw [List.pairwise_append]
          refine ⟨progress_front_pairwise env _, by simp, ?_⟩
          intro a ha b hb
          rw [List.mem_singleton.mp hb]
          have := (progress_front_lt env _ a ha).2
          show a.1 < 65 / 100
          linarith
        · intro q hq
          rcases List.mem_append.mp hq with h | h
          · have := progress_front_lt env _ q h
            constructor
            · exact this.1
            · linarith [this.2]
          · rw [List.mem_singleton.mp h]
            norm_num
        · constructor
          · rintro ⟨s, hs⟩
            rcases List.mem_append.mp hs with h | h
            · have := (progress_front_lt env _ _ h).2
              norm_num at this
            · have := List.mem_singleton.mp h
              have h1eq : (1 : ℚ) = 65 / 100 := congrArg Prod.fst this
              norm_num at h1eq
          · rintro ⟨u, hu⟩
            exact absurd hu (by simp)
      · rw [renderTimeline_success env segs h1 h2 h3]
        set P01 := loadProgress env ++ stage1Progress (mainVideoSegments segs) with hP01
        set c65 : ℚ × String := ((65 : ℚ) / 100, "Concatenating "
          ++ toString (stage1Clips env (mainVideoSegments segs)).length
          ++ " clips...") with hc65
        set P3 := (if (audioTrackSegments segs).length > 0 then
            [((75 : ℚ) / 100, "Mixing " ++ toString (audioTrackSegments segs).length
              ++ " audio track(s)...")]
          else []) with hP3
        have hP3fst : ∀ q ∈ P3, q.1 = 75 / 100 := by
          rw [hP3]
          split
          · intro q hq
            rw [List.mem_singleton.mp hq]
          · intro q hq
            simp at hq
        have hP3pw : P3.Pairwise (fun a b => (a.1 : ℚ) < b.1) := by
          rw [hP3]
          split <;> simp
        have hfront : ∀ q ∈ P01 ++ [c65], q.1 ≤ 65 / 100 := by
          intro q hq
          rcases List.mem_append.mp hq with h | h
          · have := (progress_front_lt env _ q h).2
            linarith
          · rw [List.mem_singleton.mp h]
        have hmid : ∀ q ∈ (P01 ++ [c65]) ++ P3, q.1 ≤ 75 / 100 := by
          intro q hq
          rcases List.mem_append.mp hq with h | h
          · have := hfront q h
            linarith
          · rw [hP3fst q h]
        refine ⟨?_, ?_, ?_⟩
        · rw [List.pairwise_append]
          refine ⟨?_, by norm_num, ?_⟩
          · rw [List.pairwise_append]
            refine ⟨?_, hP3pw, ?_⟩
            · rw [List.pairwise_append]
              refine ⟨progress_front_pairwise env _, by simp, ?_⟩
              intro a ha b hb
              rw [List.mem_singleton.mp hb]
              have := (progress_front_lt env _ a ha).2
              show a.1 < 65 / 100
              linarith
            · intro a ha b hb
              rw [hP3fst b hb]
              have := hfront a ha
              linarith
          · intro a ha b hb
            have := hmid a ha
            have hb2 : b.1 = 92 / 100 ∨ b.1 = 1 := by
              rcases List.mem_cons.mp hb with h | h
              · left; rw [h]
              · right
                rw [List.mem_singleton.mp h]
            rcases hb2 with h | h <;> rw [h] <;> linarith
        · intro q hq
          rcases List.mem_append.mp hq with h | h
          · have := hmid q h
            have h0 : 0 ≤ q.1 := by
              rcases List.mem_append.mp h with h4 | h4
              · rcases List.mem_append.mp h4 with h5 | h5
                · exact (progress_front_lt env _ q h5).1
                · rw [List.mem_singleton.mp h5]
                  norm_num
              · rw [hP3fst q h4]
                norm_num
            exact ⟨h0, by linarith⟩
          · rcases List.mem_cons.mp h with h4 | h4
            · rw [h4]
              norm_num
            · rw [List.mem_singleton.mp h4]
              norm_num
        · constructor
          · intro _
            exact ⟨_, rfl⟩
          · intro _
            refine ⟨"Export complete!", ?_⟩
            apply List.mem_append_right
            simp

/-- C8 witness: the all-success single-video export reports 1.0, obtained
from the success direction of C8_progress at a concrete input. -/
theorem C8_progress_witness :
    ∃ s, ((1 : ℚ), s) ∈ (renderTimeline envAllOk [segVid]).progress :=
  (C8_progress envAllOk [segVid]).2.2.mpr ⟨"video_only.mp4", rfl⟩

end Segmenta
